import Mathlib

/-!
# Matrika Bazaar backend: a shallow embedding of `src/index.js`

The file embeds the Express handlers of `src/index.js` as pure functions on an
explicit database state.  The external libraries (`bcryptjs`, `jsonwebtoken`)
are parameters (`Libs`); the per-request nondeterminism (generated ObjectId,
`Date.now`, the bcrypt salt) is an explicit input (`Ctx`).

An `async` handler either sends a response or its promise rejects; both are
outcomes of the model (`Outcome.responded`, `Outcome.rejected`).
-/

namespace MatrikaBazaar

/-! ## Data model (index.js:20-53) -/

/-- Stand-in for `mongoose.Schema.Types.ObjectId`; only equality is used. -/
abbrev ObjectId := Nat

/-- Stand-in for the JavaScript `Number` type; the handlers only copy numbers. -/
abbrev Number := Int

/-- Document of `userSchema` (index.js:21-26).  A field the constructor received
as `undefined` is absent (`none`); `password` always receives the hash and
`role` has the schema default. -/
structure User where
  _id : ObjectId
  name : Option String
  email : Option String
  password : String
  role : String
deriving DecidableEq, Repr

/-- Document of `productSchema` (index.js:29-37). -/
structure Product where
  _id : ObjectId
  title : Option String
  price : Option Number
  description : Option String
  imageUrl : Option String
  sellerId : ObjectId
  stock : Option Number
  category : Option String
deriving DecidableEq, Repr

/-- Element of `items` in `orderSchema` (index.js:43-46). -/
structure OrderItem where
  productId : Option ObjectId
  quantity : Option Number
deriving DecidableEq, Repr

/-- Document of `orderSchema` (index.js:40-52). -/
structure Order where
  _id : ObjectId
  userId : ObjectId
  items : List OrderItem
  totalAmount : Option Number
  address : Option String
  status : String
  createdAt : Option Nat
deriving DecidableEq, Repr

/-- How `.populate` treats a path whose schema declares no `ref` when the call
names no `model`.  The schema of `items.productId` (index.js:44) has no `ref`
and index.js:114 passes only the path, so this case is the one that applies;
what mongoose does then depends on its version. -/
inductive PopulateMode where
  -- no model to query: the path is skipped and keeps the stored id
  | skipPath
  -- the ids are looked up in the model the query was made on, here `Order`
  | queryingModel
deriving DecidableEq, Repr

/-- What `.populate('items.productId')` leaves at `productId`, given that the
path has no `ref`: the stored id, null, or a document of the querying model. -/
inductive PopulatedRef where
  | id (id : ObjectId)
  | null
  | order (order : Order)
deriving DecidableEq, Repr

/-- An order item after `.populate('items.productId')`; `productId` is `none`
when the stored item has no `productId`. -/
structure PopulatedItem where
  productId : Option PopulatedRef
  quantity : Option Number
deriving DecidableEq, Repr

/-- An order after `.populate('items.productId')`. -/
structure PopulatedOrder where
  _id : ObjectId
  userId : ObjectId
  items : List PopulatedItem
  totalAmount : Option Number
  address : Option String
  status : String
  createdAt : Option Nat
deriving DecidableEq, Repr

/-- The payload `{ id, role }` that `jwt.sign` receives at index.js:89 and that
`jwt.verify` gives back at index.js:60. -/
structure Claims where
  id : ObjectId
  role : String
deriving DecidableEq, Repr

/-- The MongoDB state behind the three mongoose models.  `connected` records
whether `mongoose.connect` (index.js:14-18) holds a live connection: the source
only logs a connection error and keeps serving, and then every model operation
rejects. -/
structure DB where
  connected : Bool
  users : List User
  products : List Product
  orders : List Order
deriving DecidableEq, Repr

/-! ## Requests -/

/-- Body of `POST /api/register`, as destructured at index.js:70. -/
structure RegisterBody where
  name : Option String
  email : Option String
  password : Option String
  role : Option String
deriving DecidableEq, Repr

/-- Body of `POST /api/login`, as destructured at index.js:82. -/
structure LoginBody where
  email : Option String
  password : Option String
deriving DecidableEq, Repr

/-- Body of `POST /api/products`.  The first six fields are the ones destructured
at index.js:95; `sellerId` and `extra` stand for whatever else the client put
in the JSON object. -/
structure ProductBody where
  title : Option String
  price : Option Number
  description : Option String
  imageUrl : Option String
  stock : Option Number
  category : Option String
  sellerId : Option ObjectId
  extra : List (String × String)
deriving DecidableEq, Repr

/-- Body of `POST /api/orders`.  The first three fields are the ones destructured
at index.js:107; `userId`, `status` and `extra` stand for whatever else the
client put in the JSON object. -/
structure OrderBody where
  items : Option (List OrderItem)
  totalAmount : Option Number
  address : Option String
  userId : Option ObjectId
  status : Option String
  extra : List (String × String)
deriving DecidableEq, Repr

/-- An Express request: the `Authorization` header (`req.header('Authorization')`),
the identity attached by the gate (`req.user`), and the parsed JSON body. -/
structure Request (β : Type) where
  authorization : Option String
  user : Option Claims
  body : β

/-! ## Responses -/

/-- What a rejected promise carries. -/
inductive Failure where
  -- error of bcryptjs on a non-string argument (Illegal arguments: undefined, ...)
  | illegalArguments
  -- error E11000 of the unique index on `email` (index.js:23)
  | duplicateKey
  -- a model operation without a live connection (index.js:14-18)
  | storage
  -- TypeError of reading a property of `undefined`
  | typeError
deriving DecidableEq, Repr

/-- The argument of `res.json` / `res.send`. -/
inductive Payload where
  | message (message : String)
  | session (token : String) (user : User)
  | product (product : Product)
  | products (products : List Product)
  | orderPlaced (message : String) (order : Order)
  | orders (orders : List PopulatedOrder)
  | text (text : String)
deriving DecidableEq, Repr

/-- How a handler ends: it sent a response with a status, or its promise
rejected without any response having been sent by the handler. -/
inductive Outcome where
  | responded (status : Nat) (body : Payload)
  | rejected (failure : Failure)
deriving DecidableEq, Repr

/-- The database after the handler together with how the handler ended. -/
structure Result where
  db : DB
  outcome : Outcome
deriving DecidableEq, Repr

/-- The HTTP status the handler sent, if it sent one. -/
def Outcome.status : Outcome → Option Nat
  | .responded s _ => some s
  | .rejected _ => none

/-- The token the handler sent to the client, if it sent one. -/
def Outcome.issuedToken : Outcome → Option String
  | .responded _ (.session t _) => some t
  | _ => none

/-! ## External collaborators -/

/-- The libraries: bcryptjs and jsonwebtoken on well-typed (string) arguments,
and the behaviour of the installed mongoose on a populate path without `ref`.
* `hash p salt`: `bcrypt.hash(p, 10)` when the salt drawn for the call is `salt`;
* `compare p h`: `bcrypt.compare(p, h)`;
* `sign claims secret iat`: `jwt.sign(claims, secret)` issued at time `iat`;
* `verify token secret`: `jwt.verify(token, secret)`, `none` when it throws;
* `populateNoRef`: what `.populate` does with a path that names no model. -/
structure Libs where
  hash : String → Nat → String
  compare : String → String → Bool
  sign : Claims → String → Nat → String
  verify : String → String → Option Claims
  populateNoRef : PopulateMode

/-- Everything a single request reads from outside the request and the
database: the libraries, `process.env.JWT_SECRET`, and the values drawn during
the request (bcrypt salt, `Date.now()`, the ObjectId of a new document). -/
structure Ctx where
  libs : Libs
  secret : String
  salt : Nat
  now : Nat
  oid : ObjectId

/-- Call `bcrypt.hash(password, 10)` (index.js:71): rejects when `password` is not a
string. -/
def bcryptHash (c : Ctx) (password : Option String) : Except Failure String :=
  match password with
  | none => .error .illegalArguments
  | some p => .ok (c.libs.hash p c.salt)

/-- Call `bcrypt.compare(password, hash)` (index.js:86): rejects when `password` is
not a string. -/
def bcryptCompare (c : Ctx) (password : Option String) (hash : String) :
    Except Failure Bool :=
  match password with
  | none => .error .illegalArguments
  | some p => .ok (c.libs.compare p hash)

/-! ## Mongoose operations -/

/-- Call `user.save()` for a new `User` (index.js:74): rejects without a connection,
and rejects when the unique index on `email` (index.js:23) already holds the
document's email; otherwise the document is inserted. -/
def saveUser (db : DB) (user : User) : Except Failure DB :=
  if db.connected = false then .error .storage
  else if db.users.any (fun u => u.email == user.email) then .error .duplicateKey
  else .ok { db with users := db.users ++ [user] }

/-- Query `User.findOne({ email })` (index.js:83): the first stored user with that
email, or null. -/
def findOneUser (db : DB) (email : Option String) : Except Failure (Option User) :=
  if db.connected = false then .error .storage
  else .ok (db.users.find? (fun u => u.email == email))

/-- Call `product.save()` for a new `Product` (index.js:97). -/
def saveProduct (db : DB) (product : Product) : Except Failure DB :=
  if db.connected = false then .error .storage
  else .ok { db with products := db.products ++ [product] }

/-- Query `Product.find()` (index.js:102). -/
def findProducts (db : DB) : Except Failure (List Product) :=
  if db.connected = false then .error .storage
  else .ok db.products

/-- Call `order.save()` for a new `Order` (index.js:109). -/
def saveOrder (db : DB) (order : Order) : Except Failure DB :=
  if db.connected = false then .error .storage
  else .ok { db with orders := db.orders ++ [order] }

/-- Population of `productId` in one item by `.populate('items.productId')`
(index.js:114).  The path has no `ref` (index.js:44) and the call names no
model, so the `Product` collection is never queried: the id is left in place,
or it is looked up among the documents of the querying model `Order` and
replaced by the order with that `_id`, null when there is none. -/
def populateItem (mode : PopulateMode) (orders : List Order) (item : OrderItem) :
    PopulatedItem :=
  { productId := item.productId.map (fun pid =>
      match mode with
      | .skipPath => .id pid
      | .queryingModel =>
        match orders.find? (fun o => o._id == pid) with
        | some o => .order o
        | none => .null)
    quantity := item.quantity }

/-- Population of the path `items.productId` of one order. -/
def populateOrder (mode : PopulateMode) (orders : List Order) (o : Order) :
    PopulatedOrder :=
  { _id := o._id
    userId := o.userId
    items := o.items.map (populateItem mode orders)
    totalAmount := o.totalAmount
    address := o.address
    status := o.status
    createdAt := o.createdAt }

/-- Query `Order.find({ userId }).populate('items.productId')` (index.js:114). -/
def findOrdersPopulated (mode : PopulateMode) (db : DB) (userId : ObjectId) :
    Except Failure (List PopulatedOrder) :=
  if db.connected = false then .error .storage
  else .ok ((db.orders.filter (fun o => o.userId == userId)).map
    (populateOrder mode db.orders))

/-! ## The gate and the handlers -/

/-- Middleware `authenticate` (index.js:56-66).  `next` is the rest of the
route, run on the request with `req.user` set.  The route handlers are `async`
functions, so a failure inside `next` is a rejected promise, which the
`try`/`catch` of the gate does not see: it is passed through unchanged. -/
def authenticate {β : Type} (c : Ctx) (req : Request β) (db : DB)
    (next : Request β → DB → Result) : Result :=
  match req.authorization with
  | none => ⟨db, .responded 401 (.message "No token provided")⟩
  | some token =>
    if token = "" then ⟨db, .responded 401 (.message "No token provided")⟩
    else
      match c.libs.verify token c.secret with
      | some decoded => next { req with user := some decoded } db
      | none => ⟨db, .responded 401 (.message "Invalid token")⟩

/-- Handler of `POST /api/register` (index.js:69-79). -/
def register (c : Ctx) (db : DB) (body : RegisterBody) : Result :=
  match bcryptHash c body.password with
  | .error e => ⟨db, .rejected e⟩
  | .ok hashedPassword =>
    let user : User :=
      { _id := c.oid, name := body.name, email := body.email,
        password := hashedPassword, role := body.role.getD "user" }
    match saveUser db user with
    | .ok db' => ⟨db', .responded 201 (.message "User registered successfully")⟩
    | .error _ => ⟨db, .responded 400 (.message "User already exists")⟩

/-- Handler of `POST /api/login` (index.js:81-91). -/
def login (c : Ctx) (db : DB) (body : LoginBody) : Result :=
  match findOneUser db body.email with
  | .error e => ⟨db, .rejected e⟩
  | .ok none => ⟨db, .responded 400 (.message "User not found")⟩
  | .ok (some user) =>
    match bcryptCompare c body.password user.password with
    | .error e => ⟨db, .rejected e⟩
    | .ok false => ⟨db, .responded 400 (.message "Invalid credentials")⟩
    | .ok true =>
      let token := c.libs.sign { id := user._id, role := user.role } c.secret c.now
      ⟨db, .responded 200 (.session token user)⟩

/-- Handler of `POST /api/products` behind the gate (index.js:93-99). -/
def createProductHandler (c : Ctx) (req : Request ProductBody) (db : DB) : Result :=
  match req.user with
  | none => ⟨db, .rejected .typeError⟩
  | some user =>
    if user.role ≠ "seller" then
      ⟨db, .responded 403 (.message "Only sellers can add products")⟩
    else
      let product : Product :=
        { _id := c.oid, title := req.body.title, price := req.body.price,
          description := req.body.description, imageUrl := req.body.imageUrl,
          sellerId := user.id, stock := req.body.stock, category := req.body.category }
      match saveProduct db product with
      | .error e => ⟨db, .rejected e⟩
      | .ok db' => ⟨db', .responded 201 (.product product)⟩

/-- Handler of `GET /api/products` (index.js:101-104). -/
def listProducts (db : DB) : Result :=
  match findProducts db with
  | .error e => ⟨db, .rejected e⟩
  | .ok products => ⟨db, .responded 200 (.products products)⟩

/-- Handler of `POST /api/orders` behind the gate (index.js:106-111).  An
omitted `items` becomes the empty array, `status` and `createdAt` take the
schema defaults (index.js:50-51). -/
def placeOrderHandler (c : Ctx) (req : Request OrderBody) (db : DB) : Result :=
  match req.user with
  | none => ⟨db, .rejected .typeError⟩
  | some user =>
    let order : Order :=
      { _id := c.oid, userId := user.id, items := req.body.items.getD [],
        totalAmount := req.body.totalAmount, address := req.body.address,
        status := "Pending", createdAt := some c.now }
    match saveOrder db order with
    | .error e => ⟨db, .rejected e⟩
    | .ok db' => ⟨db', .responded 201 (.orderPlaced "Order placed successfully" order)⟩

/-- Handler of `GET /api/orders` behind the gate (index.js:113-116). -/
def listMyOrdersHandler (c : Ctx) (req : Request Unit) (db : DB) : Result :=
  match req.user with
  | none => ⟨db, .rejected .typeError⟩
  | some user =>
    match findOrdersPopulated c.libs.populateNoRef db user.id with
    | .error e => ⟨db, .rejected e⟩
    | .ok orders => ⟨db, .responded 200 (.orders orders)⟩

/-- Handler of `GET /` (index.js:118-120). -/
def root (db : DB) : Result :=
  ⟨db, .responded 200 (.text "Matrika Bazaar Backend API Running")⟩

/-- Route `POST /api/products`: `authenticate`, then the handler (index.js:93). -/
def createProduct (c : Ctx) (req : Request ProductBody) (db : DB) : Result :=
  authenticate c req db (createProductHandler c)

/-- Route `POST /api/orders`: `authenticate`, then the handler (index.js:106). -/
def placeOrder (c : Ctx) (req : Request OrderBody) (db : DB) : Result :=
  authenticate c req db (placeOrderHandler c)

/-- Route `GET /api/orders`: `authenticate`, then the handler (index.js:113). -/
def listMyOrders (c : Ctx) (req : Request Unit) (db : DB) : Result :=
  authenticate c req db (listMyOrdersHandler c)

/-! ## The server as a transition system -/

/-- One inbound request to one of the routes of index.js:69-120. -/
inductive Call where
  | register (body : RegisterBody)
  | login (body : LoginBody)
  | createProduct (req : Request ProductBody)
  | listProducts
  | placeOrder (req : Request OrderBody)
  | listMyOrders (req : Request Unit)
  | root

/-- The route table: the result of serving one request. -/
def serve (c : Ctx) (db : DB) : Call → Result
  | .register body => register c db body
  | .login body => login c db body
  | .createProduct req => createProduct c req db
  | .listProducts => listProducts db
  | .placeOrder req => placeOrder c req db
  | .listMyOrders req => listMyOrders c req db
  | .root => root db

/-- The database after serving a sequence of requests, each with its own
per-request context. -/
def run (db : DB) : List (Ctx × Call) → DB
  | [] => db
  | (c, call) :: rest => run (serve c db call).db rest

/-- A database with no document in any collection. -/
def emptyDB (connected : Bool) : DB :=
  { connected := connected, users := [], products := [], orders := [] }

/-- Whether the request carries the password its handler passes to bcryptjs;
true of the routes that do not call bcryptjs. -/
def Call.passwordGiven : Call → Bool
  | .register body => body.password.isSome
  | .login body => body.password.isSome
  | _ => true

/-! ## Example collaborators and states -/

/-- Payload encoding of the example token library: `id` in unary, a dot, the role. -/
def encodeClaims (claims : Claims) : List Char :=
  List.replicate claims.id '1' ++ '.' :: claims.role.data

/-- Inverse of `encodeClaims`; `none` on a malformed payload. -/
def decodeClaims : List Char → Option Claims
  | [] => none
  | ch :: rest =>
    if ch = '.' then some ⟨0, String.mk rest⟩
    else if ch = '1' then (decodeClaims rest).map (fun d => ⟨d.id + 1, d.role⟩)
    else none

/-- Example libraries: a hash that tags the plaintext, and tokens made of the
secret, a dot and the encoded claims. -/
def exampleLibs : Libs where
  hash p _ := "$2a$10$" ++ p
  compare p h := decide (h = "$2a$10$" ++ p)
  sign claims secret _ := String.mk (secret.data ++ '.' :: encodeClaims claims)
  verify token secret :=
    if (secret.data ++ ['.']).isPrefixOf token.data then
      decodeClaims (token.data.drop (secret.data.length + 1))
    else none
  populateNoRef := .skipPath

/-- Example libraries of a mongoose version that falls back to the querying
model on a populate path without `ref`. -/
def exampleLibsQueryingModel : Libs :=
  { exampleLibs with populateNoRef := .queryingModel }

/-- Example per-request context: secret `k`, new ObjectId `oid`, time `now`. -/
def exampleCtx (oid now : Nat) : Ctx :=
  { libs := exampleLibs, secret := "k", salt := 0, now := now, oid := oid }

/-- Example token of identity 7 with role `seller` under secret `k`. -/
def sellerToken : String := "k.1111111.seller"

/-- Example token of identity 3 with role `user` under secret `k`. -/
def userToken : String := "k.111.user"


/-- Example product 1, owned by the seller 7. -/
def exampleLamp : Product :=
  { _id := 1, title := some "Lamp", price := some 20, description := none,
    imageUrl := none, sellerId := 7, stock := some 5, category := none }

/-- Example database: one product, one order of identity 3 (whose second item
refers to a product that is not in the catalog) and one order of identity 8. -/
def exampleShop : DB :=
  { connected := true
    users := []
    products := [exampleLamp]
    orders :=
      [{ _id := 20, userId := 3, items := [⟨some 1, some 2⟩, ⟨some 2, some 1⟩],
         totalAmount := some 40, address := some "X", status := "Pending",
         createdAt := some 1000 },
       { _id := 21, userId := 8, items := [⟨some 1, some 1⟩],
         totalAmount := some 20, address := some "Y", status := "Pending",
         createdAt := some 1001 }] }

/-- Example user 3: `a@x.com` with password `secret`, hashed by the example
library. -/
def exampleUser : User :=
  { _id := 3, name := some "A", email := some "a@x.com",
    password := "$2a$10$secret", role := "user" }

/-- Example database holding only the example user. -/
def exampleAccounts : DB :=
  { connected := true, users := [exampleUser], products := [], orders := [] }

/-! ## Basic facts about the gate -/

theorem authenticate_no_header {β : Type} (c : Ctx) (req : Request β) (db : DB)
    (next : Request β → DB → Result) (h : req.authorization = none) :
    authenticate c req db next = ⟨db, .responded 401 (.message "No token provided")⟩ := by
  simp [authenticate, h]

theorem authenticate_empty_header {β : Type} (c : Ctx) (req : Request β) (db : DB)
    (next : Request β → DB → Result) (h : req.authorization = some "") :
    authenticate c req db next = ⟨db, .responded 401 (.message "No token provided")⟩ := by
  simp [authenticate, h]

theorem authenticate_invalid {β : Type} (c : Ctx) (req : Request β) (db : DB)
    (next : Request β → DB → Result) (token : String)
    (h : req.authorization = some token) (hne : token ≠ "")
    (hv : c.libs.verify token c.secret = none) :
    authenticate c req db next = ⟨db, .responded 401 (.message "Invalid token")⟩ := by
  simp [authenticate, h, hne, hv]

theorem authenticate_valid {β : Type} (c : Ctx) (req : Request β) (db : DB)
    (next : Request β → DB → Result) (token : String) (decoded : Claims)
    (h : req.authorization = some token) (hne : token ≠ "")
    (hv : c.libs.verify token c.secret = some decoded) :
    authenticate c req db next = next { req with user := some decoded } db := by
  simp [authenticate, h, hne, hv]

/-! ## Basic facts about the credential store -/

theorem findUser_none_iff (users : List User) (email : Option String) :
    users.find? (fun u => u.email == email) = none ↔ ∀ u ∈ users, u.email ≠ email := by
  rw [List.find?_eq_none]
  constructor
  · intro h u hu
    simpa using h u hu
  · intro h u hu
    simpa using h u hu

theorem findUser_some (users : List User) (email : Option String) (u : User)
    (h : users.find? (fun v => v.email == email) = some u) :
    u ∈ users ∧ u.email = email := by
  refine ⟨List.mem_of_find?_eq_some h, ?_⟩
  have := List.find?_some h
  simpa using this

theorem findUser_of_nodup (users : List User) (email : Option String) (u : User)
    (hnd : (users.map (fun v => v.email)).Nodup) (hu : u ∈ users) (he : u.email = email) :
    users.find? (fun v => v.email == email) = some u := by
  induction users with
  | nil => cases hu
  | cons v vs ih =>
    rw [List.map_cons, List.nodup_cons] at hnd
    rcases List.mem_cons.mp hu with rfl | hmem
    · simp [List.find?_cons, he]
    · have hv : v.email ≠ email := by
        intro hve
        apply hnd.1
        rw [hve, ← he]
        exact List.mem_map.mpr ⟨u, hmem, rfl⟩
      have hb : (v.email == email) = false := by simpa using hv
      rw [List.find?_cons, hb]
      exact ih hnd.2 hmem

theorem saveUser_fresh (db : DB) (user : User) (hconn : db.connected = true)
    (hfresh : ∀ u ∈ db.users, u.email ≠ user.email) :
    saveUser db user = .ok { db with users := db.users ++ [user] } := by
  have hany : db.users.any (fun u => u.email == user.email) = false := by
    rw [List.any_eq_false]
    intro u hu
    simpa using hfresh u hu
  simp [saveUser, hconn, hany]

theorem saveUser_taken (db : DB) (user : User)
    (htaken : ∃ u ∈ db.users, u.email = user.email) :
    ∃ e, saveUser db user = .error e := by
  unfold saveUser
  by_cases hconn : db.connected = false
  · exact ⟨.storage, by simp [hconn]⟩
  · have hany : db.users.any (fun u => u.email == user.email) = true := by
      rw [List.any_eq_true]
      obtain ⟨u, hu, he⟩ := htaken
      exact ⟨u, hu, by simpa using he⟩
    exact ⟨.duplicateKey, by simp [hconn, hany]⟩

theorem register_taken (c : Ctx) (db : DB) (b : RegisterBody) (p : String)
    (hp : b.password = some p) (htaken : ∃ u ∈ db.users, u.email = b.email) :
    register c db b = ⟨db, .responded 400 (.message "User already exists")⟩ := by
  obtain ⟨e, he⟩ := saveUser_taken db
    { _id := c.oid, name := b.name, email := b.email,
      password := c.libs.hash p c.salt, role := b.role.getD "user" } htaken
  simp [register, bcryptHash, hp, he]

/-- The only way a request changes the credential store: a register request
with a password, on a connected store that holds no user with its email,
appends the new user. -/
theorem register_users (c : Ctx) (db : DB) (b : RegisterBody) :
    (register c db b).db = db ∨
    ∃ p, b.password = some p ∧ db.connected = true ∧
      (∀ u ∈ db.users, u.email ≠ b.email) ∧
      (register c db b).db = { db with users := db.users ++
        [{ _id := c.oid, name := b.name, email := b.email,
           password := c.libs.hash p c.salt, role := b.role.getD "user" }] } := by
  cases hp : b.password with
  | none => left; simp [register, bcryptHash, hp]
  | some p =>
    by_cases hconn : db.connected = true
    · by_cases hfresh : ∀ u ∈ db.users, u.email ≠ b.email
      · right
        refine ⟨p, rfl, hconn, hfresh, ?_⟩
        have hsave := saveUser_fresh db
          { _id := c.oid, name := b.name, email := b.email,
            password := c.libs.hash p c.salt, role := b.role.getD "user" } hconn hfresh
        simp [register, bcryptHash, hp, hsave]
      · left
        push_neg at hfresh
        obtain ⟨e, he⟩ := saveUser_taken db
          { _id := c.oid, name := b.name, email := b.email,
            password := c.libs.hash p c.salt, role := b.role.getD "user" } hfresh
        simp [register, bcryptHash, hp, he]
    · left
      simp [register, bcryptHash, hp, saveUser, hconn]

theorem authenticate_users {β : Type} (c : Ctx) (req : Request β) (db : DB)
    (next : Request β → DB → Result)
    (hnext : ∀ r, (next r db).db.users = db.users) :
    (authenticate c req db next).db.users = db.users := by
  unfold authenticate
  split
  · rfl
  · split
    · rfl
    · split
      · exact hnext _
      · rfl

theorem createProductHandler_users (c : Ctx) (req : Request ProductBody) (db : DB) :
    (createProductHandler c req db).db.users = db.users := by
  unfold createProductHandler saveProduct
  repeat (first | rfl | split)

theorem placeOrderHandler_users (c : Ctx) (req : Request OrderBody) (db : DB) :
    (placeOrderHandler c req db).db.users = db.users := by
  unfold placeOrderHandler saveOrder
  repeat (first | rfl | split)

theorem listMyOrdersHandler_db (c : Ctx) (req : Request Unit) (db : DB) :
    (listMyOrdersHandler c req db).db = db := by
  unfold listMyOrdersHandler
  repeat (first | rfl | split)

theorem login_db (c : Ctx) (db : DB) (b : LoginBody) : (login c db b).db = db := by
  unfold login
  repeat (first | rfl | split)

theorem listProducts_db (db : DB) : (listProducts db).db = db := by
  unfold listProducts
  repeat (first | rfl | split)

/-- Every request either leaves the users as they are or is a register request
that appends one user with a new email, built from its body. -/
theorem serve_users (c : Ctx) (db : DB) (call : Call) :
    (serve c db call).db.users = db.users ∨
    ∃ b p, call = .register b ∧ b.password = some p ∧
      (∀ u ∈ db.users, u.email ≠ b.email) ∧
      (serve c db call).db.users = db.users ++
        [{ _id := c.oid, name := b.name, email := b.email,
           password := c.libs.hash p c.salt, role := b.role.getD "user" }] := by
  cases call with
  | register b =>
    rcases register_users c db b with h | ⟨p, hp, -, hfresh, h⟩
    · left; simp [serve, h]
    · right; exact ⟨b, p, rfl, hp, hfresh, by simp [serve, h]⟩
  | login b => left; simp [serve, login_db]
  | createProduct req =>
    left
    exact authenticate_users c req db _ (fun r => createProductHandler_users c r db)
  | listProducts => left; simp [serve, listProducts_db]
  | placeOrder req =>
    left
    exact authenticate_users c req db _ (fun r => placeOrderHandler_users c r db)
  | listMyOrders req =>
    left
    exact authenticate_users c req db _ (fun r => by rw [listMyOrdersHandler_db])
  | root => left; rfl

theorem serve_emails_nodup (c : Ctx) (db : DB) (call : Call)
    (hnd : (db.users.map (fun u => u.email)).Nodup) :
    ((serve c db call).db.users.map (fun u => u.email)).Nodup := by
  rcases serve_users c db call with h | ⟨b, p, -, -, hfresh, h⟩
  · rw [h]; exact hnd
  · rw [h, List.map_append, List.nodup_append]
    refine ⟨hnd, by simp, ?_⟩
    intro e he1 he2
    obtain ⟨u, hu, rfl⟩ := List.mem_map.mp he1
    simp at he2
    exact hfresh u hu he2

theorem run_emails_nodup (calls : List (Ctx × Call)) (db : DB)
    (hnd : (db.users.map (fun u => u.email)).Nodup) :
    ((run db calls).users.map (fun u => u.email)).Nodup := by
  induction calls generalizing db with
  | nil => exact hnd
  | cons head rest ih =>
    obtain ⟨c, call⟩ := head
    exact ih _ (serve_emails_nodup c db call hnd)

/-! ## The example libraries satisfy the library contracts -/

theorem decodeClaims_replicate (n : Nat) (role : List Char) :
    decodeClaims (List.replicate n '1' ++ '.' :: role) = some ⟨n, String.mk role⟩ := by
  induction n with
  | zero => simp [decodeClaims]
  | succ k ih =>
    have h1 : ('1' : Char) ≠ '.' := by decide
    simp [List.replicate_succ, decodeClaims, h1, ih]

theorem exampleLibs_compare_hash (p : String) (salt : Nat) :
    exampleLibs.compare p (exampleLibs.hash p salt) = true := by
  simp [exampleLibs]

theorem exampleLibs_verify_sign (claims : Claims) (secret : String) (iat : Nat) :
    exampleLibs.verify (exampleLibs.sign claims secret iat) secret = some claims := by
  have hpre : (secret.data ++ ['.']).isPrefixOf (secret.data ++ '.' :: encodeClaims claims)
      = true := by
    rw [List.isPrefixOf_iff_prefix]
    exact ⟨encodeClaims claims, by simp⟩
  have hdrop : List.drop (secret.data.length + 1) (secret.data ++ '.' :: encodeClaims claims)
      = encodeClaims claims := by
    have : secret.data ++ '.' :: encodeClaims claims
        = (secret.data ++ ['.']) ++ encodeClaims claims := by simp
    rw [this]
    exact List.drop_left' (by simp)
  simp only [exampleLibs, hpre, hdrop, if_true]
  exact decodeClaims_replicate claims.id claims.role.data

/-! ## Basic facts about responses and provenance -/

theorem authenticate_responds {β : Type} (c : Ctx) (req : Request β) (db : DB)
    (next : Request β → DB → Result)
    (hnext : ∀ d, ∃ status body,
      (next { req with user := some d } db).outcome = .responded status body) :
    ∃ status body, (authenticate c req db next).outcome = .responded status body := by
  unfold authenticate
  split
  · exact ⟨_, _, rfl⟩
  · split
    · exact ⟨_, _, rfl⟩
    · split
      · exact hnext _
      · exact ⟨_, _, rfl⟩

theorem serve_responds (c : Ctx) (db : DB) (call : Call)
    (hconn : db.connected = true) (hpw : call.passwordGiven = true) :
    ∃ status body, (serve c db call).outcome = .responded status body := by
  cases call with
  | register b =>
    cases hp : b.password with
    | none => simp [Call.passwordGiven, hp] at hpw
    | some p =>
      simp only [serve, register, bcryptHash, hp]
      split
      · exact ⟨_, _, rfl⟩
      · exact ⟨_, _, rfl⟩
  | login b =>
    cases hp : b.password with
    | none => simp [Call.passwordGiven, hp] at hpw
    | some p =>
      cases hf : db.users.find? (fun u => u.email == b.email) with
      | none =>
        exact ⟨400, .message "User not found", by
          simp [serve, login, findOneUser, hconn, hf]⟩
      | some u =>
        cases hc : c.libs.compare p u.password with
        | false =>
          exact ⟨400, .message "Invalid credentials", by
            simp [serve, login, findOneUser, hconn, hf, bcryptCompare, hp, hc]⟩
        | true =>
          exact ⟨200, .session (c.libs.sign ⟨u._id, u.role⟩ c.secret c.now) u, by
            simp [serve, login, findOneUser, hconn, hf, bcryptCompare, hp, hc]⟩
  | createProduct req =>
    apply authenticate_responds
    intro d
    by_cases hrole : d.role = "seller"
    · exact ⟨201, .product
        { _id := c.oid, title := req.body.title, price := req.body.price,
          description := req.body.description, imageUrl := req.body.imageUrl,
          sellerId := d.id, stock := req.body.stock, category := req.body.category }, by
        simp [createProductHandler, hrole, saveProduct, hconn]⟩
    · exact ⟨403, .message "Only sellers can add products", by
        simp [createProductHandler, hrole]⟩
  | listProducts =>
    exact ⟨200, .products db.products, by simp [serve, listProducts, findProducts, hconn]⟩
  | placeOrder req =>
    apply authenticate_responds
    intro d
    exact ⟨201, .orderPlaced "Order placed successfully"
      { _id := c.oid, userId := d.id, items := req.body.items.getD [],
        totalAmount := req.body.totalAmount, address := req.body.address,
        status := "Pending", createdAt := some c.now }, by
      simp [placeOrderHandler, saveOrder, hconn]⟩
  | listMyOrders req =>
    apply authenticate_responds
    intro d
    exact ⟨200, .orders ((db.orders.filter (fun o => o.userId == d.id)).map
      (populateOrder c.libs.populateNoRef db.orders)), by
      simp [listMyOrdersHandler, findOrdersPopulated, hconn]⟩
  | root => exact ⟨_, _, rfl⟩

/-- Every stored user was either in the initial store or was created by a
register request of the sequence, from that request's body. -/
theorem run_user_origin (calls : List (Ctx × Call)) (db : DB) (u : User)
    (hu : u ∈ (run db calls).users) :
    u ∈ db.users ∨
    ∃ c b p, (c, Call.register b) ∈ calls ∧ b.password = some p ∧
      u = { _id := c.oid, name := b.name, email := b.email,
            password := c.libs.hash p c.salt, role := b.role.getD "user" } := by
  induction calls generalizing db with
  | nil => exact Or.inl hu
  | cons head rest ih =>
    obtain ⟨c, call⟩ := head
    rcases ih (serve c db call).db hu with h | ⟨c2, b, p, hmem, hp, hu2⟩
    · rcases serve_users c db call with hs | ⟨b, p, hcall, hp, -, hs⟩
      · left; rwa [hs] at h
      · rw [hs] at h
        rcases List.mem_append.mp h with h1 | h1
        · exact Or.inl h1
        · right
          refine ⟨c, b, p, ?_, hp, List.mem_singleton.mp h1⟩
          rw [hcall]
          exact List.mem_cons_self _ _
    · exact Or.inr ⟨c2, b, p, List.mem_cons_of_mem _ hmem, hp, hu2⟩

/-! ## The claims -/

/-- C1: the gate `authenticate` has exactly three outcomes.  Without a token
(no `Authorization` header, or an empty one) the response is 401 with message
"No token provided"; with a token that `jwt.verify` rejects the response is 401
with message "Invalid token"; in both cases the result does not depend on the
gated operation `next` (it is not run) and the database is unchanged.  With a
token that verifies, the result of the route is the result of one run of `next`
on the request with `req.user` set to the decoded claims.  The three cases
cover every request. -/
theorem authenticate_three_outcomes {β : Type} (c : Ctx) (req : Request β) (db : DB)
    (next : Request β → DB → Result) :
    ((req.authorization = none ∨ req.authorization = some "") →
      authenticate c req db next = ⟨db, .responded 401 (.message "No token provided")⟩) ∧
    (∀ token, req.authorization = some token → token ≠ "" →
      c.libs.verify token c.secret = none →
      authenticate c req db next = ⟨db, .responded 401 (.message "Invalid token")⟩) ∧
    (∀ token decoded, req.authorization = some token → token ≠ "" →
      c.libs.verify token c.secret = some decoded →
      authenticate c req db next = next { req with user := some decoded } db) ∧
    ((req.authorization = none ∨ req.authorization = some "") ∨
      (∃ token, req.authorization = some token ∧ token ≠ "" ∧
        c.libs.verify token c.secret = none) ∨
      (∃ token decoded, req.authorization = some token ∧ token ≠ "" ∧
        c.libs.verify token c.secret = some decoded)) := by
  refine ⟨?_, ?_, ?_, ?_⟩
  · rintro (h | h)
    · exact authenticate_no_header c req db next h
    · exact authenticate_empty_header c req db next h
  · intro token h hne hv
    exact authenticate_invalid c req db next token h hne hv
  · intro token decoded h hne hv
    exact authenticate_valid c req db next token decoded h hne hv
  · cases hreq : req.authorization with
    | none => exact Or.inl (Or.inl rfl)
    | some token =>
      by_cases hne : token = ""
      · subst hne
        exact Or.inl (Or.inr rfl)
      · cases hv : c.libs.verify token c.secret with
        | none => exact Or.inr (Or.inl ⟨token, rfl, hne, hv⟩)
        | some decoded => exact Or.inr (Or.inr ⟨token, decoded, rfl, hne, hv⟩)

/-- Witness of C1 on the three protected routes with the example libraries: no
header on `GET /api/orders`, a garbage token on `POST /api/orders` (whose
handler would have stored an order), and a seller token on
`POST /api/products`, where the handler runs once and stores one product. -/
theorem authenticate_three_outcomes_witness :
    listMyOrders (exampleCtx 1 0) ⟨none, none, ()⟩ (emptyDB true)
      = ⟨emptyDB true, .responded 401 (.message "No token provided")⟩ ∧
    placeOrder (exampleCtx 1 0) ⟨some "garbage", none, ⟨none, none, none, none, none, []⟩⟩
        (emptyDB true)
      = ⟨emptyDB true, .responded 401 (.message "Invalid token")⟩ ∧
    (createProduct (exampleCtx 1 0)
        ⟨some sellerToken, none, ⟨some "Lamp", some 20, none, none, some 5, none, none, []⟩⟩
        (emptyDB true)).db.products.length = 1 :=
  ⟨(authenticate_three_outcomes (exampleCtx 1 0) ⟨none, none, ()⟩ (emptyDB true)
      (listMyOrdersHandler (exampleCtx 1 0))).1 (Or.inl rfl),
   (authenticate_three_outcomes (exampleCtx 1 0)
      ⟨some "garbage", none, ⟨none, none, none, none, none, []⟩⟩ (emptyDB true)
      (placeOrderHandler (exampleCtx 1 0))).2.1 "garbage" rfl (by decide) (by decide),
   by
    have h := (authenticate_three_outcomes (exampleCtx 1 0)
      ⟨some sellerToken, none, ⟨some "Lamp", some 20, none, none, some 5, none, none, []⟩⟩
      (emptyDB true) (createProductHandler (exampleCtx 1 0))).2.2.1 sellerToken
      ⟨7, "seller"⟩ rfl (by decide) (by decide)
    unfold createProduct
    rw [h]
    decide⟩

/-- C2: on `POST /api/products` with a token that verifies, the response is 403
exactly when the decoded role is not `seller`, and then the whole result is the
403 response with the database (hence the catalog) unchanged.  A request
without a token or with a token that does not verify is answered 401 with the
database unchanged, so never 403: the role check is behind the gate. -/
theorem createProduct_forbidden_iff (c : Ctx) (req : Request ProductBody) (db : DB) :
    (∀ token decoded, req.authorization = some token → token ≠ "" →
      c.libs.verify token c.secret = some decoded →
      (((createProduct c req db).outcome.status = some 403 ↔ decoded.role ≠ "seller") ∧
       (decoded.role ≠ "seller" →
          createProduct c req db
            = ⟨db, .responded 403 (.message "Only sellers can add products")⟩))) ∧
    ((req.authorization = none ∨ req.authorization = some "" ∨
        (∃ token, req.authorization = some token ∧ c.libs.verify token c.secret = none)) →
      ((createProduct c req db).outcome.status = some 401 ∧
       (createProduct c req db).outcome.status ≠ some 403 ∧
       (createProduct c req db).db = db)) := by
  constructor
  · intro token decoded h hne hv
    have hrun : createProduct c req db
        = createProductHandler c { req with user := some decoded } db :=
      authenticate_valid c req db _ token decoded h hne hv
    rw [hrun]
    by_cases hrole : decoded.role = "seller"
    · simp only [createProductHandler, hrole, saveProduct]
      cases db.connected <;> simp [Outcome.status]
    · simp [createProductHandler, hrole, Outcome.status]
  · rintro (h | h | ⟨token, h, hv⟩)
    · simp [createProduct, authenticate_no_header c req db _ h, Outcome.status]
    · simp [createProduct, authenticate_empty_header c req db _ h, Outcome.status]
    · by_cases hne : token = ""
      · subst hne
        simp [createProduct, authenticate_empty_header c req db _ h, Outcome.status]
      · simp [createProduct, authenticate_invalid c req db _ token h hne hv, Outcome.status]

/-- Witness of C2 with the example libraries: a `user` token is answered 403 and
nothing is stored; a request without a token that carries a seller id in its
body is answered 401. -/
theorem createProduct_forbidden_iff_witness :
    createProduct (exampleCtx 1 0)
        ⟨some userToken, none, ⟨some "Lamp", some 20, none, none, some 5, none, none, []⟩⟩
        (emptyDB true)
      = ⟨emptyDB true, .responded 403 (.message "Only sellers can add products")⟩ ∧
    (createProduct (exampleCtx 1 0)
        ⟨none, none, ⟨some "Lamp", some 20, none, none, some 5, none, some 7, []⟩⟩
        (emptyDB true)).outcome.status = some 401 :=
  ⟨((createProduct_forbidden_iff (exampleCtx 1 0)
      ⟨some userToken, none, ⟨some "Lamp", some 20, none, none, some 5, none, none, []⟩⟩
      (emptyDB true)).1 userToken ⟨3, "user"⟩ rfl (by decide) (by decide)).2 (by decide),
   ((createProduct_forbidden_iff (exampleCtx 1 0)
      ⟨none, none, ⟨some "Lamp", some 20, none, none, some 5, none, some 7, []⟩⟩
      (emptyDB true)).2 (Or.inl rfl)).1⟩

/-- C3: when the token verifies with role `seller` (and the save goes through),
`POST /api/products` answers 201 with the product it appended to the catalog;
that product has `sellerId` equal to the token's id and its title, price,
description, imageUrl, stock and category are the body's.  Any second request
to the same server with the same token whose body agrees on these six fields
(whatever its `sellerId` and other fields) creates the same product, up to the
generated `_id`. -/
theorem createProduct_seller_fields (c : Ctx) (req : Request ProductBody) (db : DB)
    (token : String) (decoded : Claims)
    (hconn : db.connected = true)
    (htok : req.authorization = some token) (hne : token ≠ "")
    (hver : c.libs.verify token c.secret = some decoded)
    (hrole : decoded.role = "seller") :
    ∃ p : Product,
      createProduct c req db
        = ⟨{ db with products := db.products ++ [p] }, .responded 201 (.product p)⟩ ∧
      p.sellerId = decoded.id ∧
      p.title = req.body.title ∧ p.price = req.body.price ∧
      p.description = req.body.description ∧ p.imageUrl = req.body.imageUrl ∧
      p.stock = req.body.stock ∧ p.category = req.body.category ∧
      ∀ (c2 : Ctx) (req2 : Request ProductBody) (db2 : DB),
        c2.libs = c.libs → c2.secret = c.secret → db2.connected = true →
        req2.authorization = some token →
        req2.body.title = req.body.title → req2.body.price = req.body.price →
        req2.body.description = req.body.description →
        req2.body.imageUrl = req.body.imageUrl →
        req2.body.stock = req.body.stock → req2.body.category = req.body.category →
        createProduct c2 req2 db2
          = ⟨{ db2 with products := db2.products ++ [{ p with _id := c2.oid }] },
             .responded 201 (.product { p with _id := c2.oid })⟩ := by
  refine ⟨{ _id := c.oid, title := req.body.title, price := req.body.price,
            description := req.body.description, imageUrl := req.body.imageUrl,
            sellerId := decoded.id, stock := req.body.stock,
            category := req.body.category }, ?_, rfl, rfl, rfl, rfl, rfl, rfl, rfl, ?_⟩
  · have hrun : createProduct c req db
        = createProductHandler c { req with user := some decoded } db :=
      authenticate_valid c req db _ token decoded htok hne hver
    rw [hrun]
    simp [createProductHandler, hrole, saveProduct, hconn]
  · intro c2 req2 db2 hlibs hsecret hconn2 htok2 h1 h2 h3 h4 h5 h6
    have hver2 : c2.libs.verify token c2.secret = some decoded := by
      rw [hlibs, hsecret]; exact hver
    have hrun : createProduct c2 req2 db2
        = createProductHandler c2 { req2 with user := some decoded } db2 :=
      authenticate_valid c2 req2 db2 _ token decoded htok2 hne hver2
    rw [hrun]
    simp [createProductHandler, hrole, saveProduct, hconn2, h1, h2, h3, h4, h5, h6]

/-- Witness of C3 with the example libraries: a seller token of identity 7 and
a body that claims `sellerId` 99 create a product owned by 7. -/
theorem createProduct_seller_fields_witness :
    ∃ p : Product,
      createProduct (exampleCtx 1 0)
          ⟨some sellerToken, none,
            ⟨some "Lamp", some 20, none, none, some 5, none, some 99, [("admin", "yes")]⟩⟩
          (emptyDB true)
        = ⟨{ emptyDB true with products := (emptyDB true).products ++ [p] },
           .responded 201 (.product p)⟩ ∧
      p.sellerId = 7 ∧ p.title = some "Lamp" ∧ p.price = some 20 := by
  obtain ⟨p, h, hs, ht, hp, -⟩ := createProduct_seller_fields (exampleCtx 1 0)
    ⟨some sellerToken, none,
      ⟨some "Lamp", some 20, none, none, some 5, none, some 99, [("admin", "yes")]⟩⟩
    (emptyDB true) sellerToken ⟨7, "seller"⟩ rfl rfl (by decide) (by decide) rfl
  exact ⟨p, h, hs, ht, hp⟩

/-- C4: for every request to `POST /api/orders` whose token verifies, whatever
the decoded role and whatever the catalog holds (and when the save goes
through), the response is 201 with the order that was appended to the order
store; that order has `userId` equal to the token's id, `items` (the empty
list when omitted), `totalAmount` and `address` as in the body, status
`Pending` and `createdAt` set to the time of the request.  Any second request
to the same server with the same token whose body agrees on `items`,
`totalAmount` and `address` (whatever its `userId`, `status` and other fields)
creates the same order, up to the generated `_id` and `createdAt`. -/
theorem placeOrder_fields (c : Ctx) (req : Request OrderBody) (db : DB)
    (token : String) (decoded : Claims)
    (hconn : db.connected = true)
    (htok : req.authorization = some token) (hne : token ≠ "")
    (hver : c.libs.verify token c.secret = some decoded) :
    ∃ o : Order,
      placeOrder c req db
        = ⟨{ db with orders := db.orders ++ [o] },
           .responded 201 (.orderPlaced "Order placed successfully" o)⟩ ∧
      o.userId = decoded.id ∧
      o.items = req.body.items.getD [] ∧
      (∀ items, req.body.items = some items → o.items = items) ∧
      o.totalAmount = req.body.totalAmount ∧ o.address = req.body.address ∧
      o.status = "Pending" ∧ o.createdAt = some c.now ∧
      ∀ (c2 : Ctx) (req2 : Request OrderBody) (db2 : DB),
        c2.libs = c.libs → c2.secret = c.secret → db2.connected = true →
        req2.authorization = some token →
        req2.body.items = req.body.items →
        req2.body.totalAmount = req.body.totalAmount →
        req2.body.address = req.body.address →
        placeOrder c2 req2 db2
          = ⟨{ db2 with orders :=
                db2.orders ++ [{ o with _id := c2.oid, createdAt := some c2.now }] },
             .responded 201 (.orderPlaced "Order placed successfully"
                { o with _id := c2.oid, createdAt := some c2.now })⟩ := by
  refine ⟨{ _id := c.oid, userId := decoded.id, items := req.body.items.getD [],
            totalAmount := req.body.totalAmount, address := req.body.address,
            status := "Pending", createdAt := some c.now },
          ?_, rfl, rfl, ?_, rfl, rfl, rfl, rfl, ?_⟩
  · have hrun : placeOrder c req db
        = placeOrderHandler c { req with user := some decoded } db :=
      authenticate_valid c req db _ token decoded htok hne hver
    rw [hrun]
    simp [placeOrderHandler, saveOrder, hconn]
  · intro items hitems
    simp [hitems]
  · intro c2 req2 db2 hlibs hsecret hconn2 htok2 h1 h2 h3
    have hver2 : c2.libs.verify token c2.secret = some decoded := by
      rw [hlibs, hsecret]; exact hver
    have hrun : placeOrder c2 req2 db2
        = placeOrderHandler c2 { req2 with user := some decoded } db2 :=
      authenticate_valid c2 req2 db2 _ token decoded htok2 hne hver2
    rw [hrun]
    simp [placeOrderHandler, saveOrder, hconn2, h1, h2, h3]

/-- Witness of C4 with the example libraries: identity 3 orders two units of
product 1 for a total of 40 on an empty catalog, with a body that claims
`userId` 99 and status `Shipped`. -/
theorem placeOrder_fields_witness :
    ∃ o : Order,
      placeOrder (exampleCtx 5 1000)
          ⟨some userToken, none,
            ⟨some [⟨some 1, some 2⟩], some 40, some "X", some 99, some "Shipped", []⟩⟩
          (emptyDB true)
        = ⟨{ emptyDB true with orders := (emptyDB true).orders ++ [o] },
           .responded 201 (.orderPlaced "Order placed successfully" o)⟩ ∧
      o.userId = 3 ∧ o.items = [⟨some 1, some 2⟩] ∧ o.totalAmount = some 40 ∧
      o.status = "Pending" ∧ o.createdAt = some 1000 := by
  obtain ⟨o, h, hu, hi, -, ht, -, hs, hc, -⟩ := placeOrder_fields (exampleCtx 5 1000)
    ⟨some userToken, none,
      ⟨some [⟨some 1, some 2⟩], some 40, some "X", some 99, some "Shipped", []⟩⟩
    (emptyDB true) userToken ⟨3, "user"⟩ rfl rfl (by decide) (by decide)
  exact ⟨o, h, hu, hi, ht, hs, hc⟩

/-- The part of the listing that the code does deliver: with a token that
verifies, on a store that answers the query, `GET /api/orders` answers 200
with the populated forms of exactly the stored orders whose `userId` is the
token's id, in stored order.  The catalog plays no part: the response is the
same whatever products the database holds. -/
theorem listMyOrders_owner_filter (c : Ctx) (req : Request Unit) (db : DB)
    (token : String) (decoded : Claims)
    (hconn : db.connected = true)
    (htok : req.authorization = some token) (hne : token ≠ "")
    (hver : c.libs.verify token c.secret = some decoded) :
    ∃ os : List PopulatedOrder,
      listMyOrders c req db = ⟨db, .responded 200 (.orders os)⟩ ∧
      os = (db.orders.filter (fun o => o.userId == decoded.id)).map
              (populateOrder c.libs.populateNoRef db.orders) ∧
      (∀ po ∈ os, po.userId = decoded.id) ∧
      (∀ o ∈ db.orders, o.userId = decoded.id →
        populateOrder c.libs.populateNoRef db.orders o ∈ os) ∧
      (∀ products : List Product,
        (listMyOrders c req { db with products := products }).outcome
          = .responded 200 (.orders os)) := by
  have hrun : ∀ dbx : DB, listMyOrders c req dbx
      = listMyOrdersHandler c { req with user := some decoded } dbx :=
    fun dbx => authenticate_valid c req dbx _ token decoded htok hne hver
  refine ⟨_, ?_, rfl, ?_, ?_, ?_⟩
  · rw [hrun]
    simp [listMyOrdersHandler, findOrdersPopulated, hconn]
  · intro po hpo
    obtain ⟨o, ho, rfl⟩ := List.mem_map.mp hpo
    have := (List.mem_filter.mp ho).2
    simpa [populateOrder] using this
  · intro o ho hid
    exact List.mem_map.mpr ⟨o, List.mem_filter.mpr ⟨ho, by simpa using hid⟩, rfl⟩
  · intro products
    rw [hrun]
    simp [listMyOrdersHandler, findOrdersPopulated, hconn]

/-- C5 fails on the code: `productId` is never replaced by the Product.  The
example database holds the product 1 and an order of identity 3 whose items
refer to the product 1 and to a product 2 that does not exist.  Identity 3 is
shown its own order only, but the item that refers to the stored product 1 is
not expanded to it: `productId` keeps the id 1 when mongoose skips a populate
path without `ref`, and it is null when mongoose looks the id up in the
querying model `Order`. -/
theorem listMyOrders_not_expanded :
    exampleLamp ∈ exampleShop.products ∧ exampleLamp._id = 1 ∧
    listMyOrders (exampleCtx 9 0) ⟨some userToken, none, ()⟩ exampleShop
      = ⟨exampleShop, .responded 200 (.orders
          [{ _id := 20, userId := 3,
             items := [⟨some (.id 1), some 2⟩, ⟨some (.id 2), some 1⟩],
             totalAmount := some 40, address := some "X", status := "Pending",
             createdAt := some 1000 }])⟩ ∧
    listMyOrders { exampleCtx 9 0 with libs := exampleLibsQueryingModel }
        ⟨some userToken, none, ()⟩ exampleShop
      = ⟨exampleShop, .responded 200 (.orders
          [{ _id := 20, userId := 3,
             items := [⟨some .null, some 2⟩, ⟨some .null, some 1⟩],
             totalAmount := some 40, address := some "X", status := "Pending",
             createdAt := some 1000 }])⟩ := by
  refine ⟨by decide, rfl, by decide, by decide⟩

/-- C6: on a store that answers the lookup, `POST /api/login` with an email and
a password has exactly three outcomes, and none changes the database.  If no
stored user has the email, the response is 400 "User not found".  Otherwise,
for the user `u` that the lookup finds (a stored user with that email; the one
with that email when emails are unique): if `bcrypt.compare` of the password
with `u`'s stored hash is false, the response is 400 "Invalid credentials"; if
it is true, the response is 200 with the token signed for the claims
`id = u._id`, `role = u.role` together with `u`.  A response other than the
200 carries no token. -/
theorem login_three_outcomes (c : Ctx) (db : DB) (email : Option String)
    (password : String) (hconn : db.connected = true) :
    ((∀ u ∈ db.users, u.email ≠ email) →
      login c db ⟨email, some password⟩
        = ⟨db, .responded 400 (.message "User not found")⟩) ∧
    (∀ u, db.users.find? (fun v => v.email == email) = some u →
      (u ∈ db.users ∧ u.email = email) ∧
      (c.libs.compare password u.password = false →
        login c db ⟨email, some password⟩
          = ⟨db, .responded 400 (.message "Invalid credentials")⟩) ∧
      (c.libs.compare password u.password = true →
        login c db ⟨email, some password⟩
          = ⟨db, .responded 200
              (.session (c.libs.sign ⟨u._id, u.role⟩ c.secret c.now) u)⟩)) ∧
    ((db.users.map (fun v => v.email)).Nodup → ∀ u ∈ db.users, u.email = email →
      db.users.find? (fun v => v.email == email) = some u) ∧
    ((∀ u ∈ db.users, u.email ≠ email) ∨
      ∃ u, db.users.find? (fun v => v.email == email) = some u) ∧
    (login c db ⟨email, some password⟩).db = db ∧
    ((login c db ⟨email, some password⟩).outcome.status ≠ some 200 →
      (login c db ⟨email, some password⟩).outcome.issuedToken = none) := by
  refine ⟨?_, ?_, ?_, ?_, login_db c db _, ?_⟩
  · intro hnone
    have hf := (findUser_none_iff db.users email).mpr hnone
    simp [login, findOneUser, hconn, hf]
  · intro u hf
    refine ⟨findUser_some db.users email u hf, ?_, ?_⟩
    · intro hcmp
      simp [login, findOneUser, hconn, hf, bcryptCompare, hcmp]
    · intro hcmp
      simp [login, findOneUser, hconn, hf, bcryptCompare, hcmp]
  · intro hnd u hu he
    exact findUser_of_nodup db.users email u hnd hu he
  · cases hf : db.users.find? (fun v => v.email == email) with
    | none => exact Or.inl ((findUser_none_iff db.users email).mp hf)
    | some u => exact Or.inr ⟨u, rfl⟩
  · cases hf : db.users.find? (fun v => v.email == email) with
    | none => simp [login, findOneUser, hconn, hf, Outcome.issuedToken]
    | some u =>
      cases hcmp : c.libs.compare password u.password with
      | false =>
        simp [login, findOneUser, hconn, hf, bcryptCompare, hcmp, Outcome.issuedToken]
      | true =>
        simp [login, findOneUser, hconn, hf, bcryptCompare, hcmp, Outcome.status]

/-- Witness of C6 with the example libraries on a store holding the user
`a@x.com` with password `secret`: an unknown email, a wrong password and the
right password give the three outcomes. -/
theorem login_three_outcomes_witness :
    login (exampleCtx 9 50) exampleAccounts ⟨some "b@x.com", some "secret"⟩
      = ⟨exampleAccounts, .responded 400 (.message "User not found")⟩ ∧
    login (exampleCtx 9 50) exampleAccounts ⟨some "a@x.com", some "wrong"⟩
      = ⟨exampleAccounts, .responded 400 (.message "Invalid credentials")⟩ ∧
    login (exampleCtx 9 50) exampleAccounts ⟨some "a@x.com", some "secret"⟩
      = ⟨exampleAccounts, .responded 200 (.session userToken exampleUser)⟩ :=
  ⟨(login_three_outcomes (exampleCtx 9 50) exampleAccounts (some "b@x.com") "secret"
      rfl).1 (by decide),
   ((login_three_outcomes (exampleCtx 9 50) exampleAccounts (some "a@x.com") "wrong"
      rfl).2.1 exampleUser (by decide)).2.1 (by decide),
   ((login_three_outcomes (exampleCtx 9 50) exampleAccounts (some "a@x.com") "secret"
      rfl).2.1 exampleUser (by decide)).2.2 (by decide)⟩

/-- C7: round trip of register, login and the gate.  Assume the library
contracts: `bcrypt.compare(p, h)` is true for every hash `h` that `bcrypt.hash`
makes of `p`, and `jwt.verify` of a token signed with the secret gives back the
signed claims.  If register answers 201 on a store holding no user with the
email, then login with the same email and password on the resulting store
answers 200 with the stored new user `u` and a token that `jwt.verify`, under
the same secret, decodes to `id = u._id`, `role = u.role`; and the gate of any
request of the same server carrying that (non-empty) token runs the gated
operation with that identity attached. -/
theorem register_login_roundtrip (c1 c2 : Ctx) (db : DB) (b : RegisterBody)
    (hcompare : ∀ p salt, c2.libs.compare p (c1.libs.hash p salt) = true)
    (hverify : ∀ claims iat,
      c2.libs.verify (c2.libs.sign claims c2.secret iat) c2.secret = some claims)
    (hfresh : ∀ u ∈ db.users, u.email ≠ b.email)
    (hreg : (register c1 db b).outcome
      = .responded 201 (.message "User registered successfully")) :
    ∃ (u : User) (token : String),
      (register c1 db b).db.users = db.users ++ [u] ∧
      u._id = c1.oid ∧ u.email = b.email ∧ u.role = b.role.getD "user" ∧
      login c2 (register c1 db b).db ⟨b.email, b.password⟩
        = ⟨(register c1 db b).db, .responded 200 (.session token u)⟩ ∧
      c2.libs.verify token c2.secret = some ⟨u._id, u.role⟩ ∧
      (token ≠ "" → ∀ (β : Type) (c3 : Ctx) (req : Request β) (dbx : DB)
          (next : Request β → DB → Result),
        c3.libs = c2.libs → c3.secret = c2.secret → req.authorization = some token →
        authenticate c3 req dbx next
          = next { req with user := some ⟨u._id, u.role⟩ } dbx) := by
  cases hp : b.password with
  | none => simp [register, bcryptHash, hp] at hreg
  | some p =>
    by_cases hconn : db.connected = true
    · have hsave := saveUser_fresh db
        { _id := c1.oid, name := b.name, email := b.email,
          password := c1.libs.hash p c1.salt, role := b.role.getD "user" } hconn hfresh
      have hr : register c1 db b
          = ⟨{ db with users := db.users ++
                [{ _id := c1.oid, name := b.name, email := b.email,
                   password := c1.libs.hash p c1.salt, role := b.role.getD "user" }] },
             .responded 201 (.message "User registered successfully")⟩ := by
        simp [register, bcryptHash, hp, hsave]
      have hnone := (findUser_none_iff db.users b.email).mpr hfresh
      refine ⟨{ _id := c1.oid, name := b.name, email := b.email,
                password := c1.libs.hash p c1.salt, role := b.role.getD "user" },
              c2.libs.sign ⟨c1.oid, b.role.getD "user"⟩ c2.secret c2.now,
              by rw [hr], rfl, rfl, rfl, ?_, hverify _ _, ?_⟩
      · rw [hr]
        simp [login, findOneUser, hconn, List.find?_append, hnone, bcryptCompare,
          hcompare]
      · intro hne β c3 req dbx next hlibs hsecret hauth
        apply authenticate_valid c3 req dbx next _ _ hauth hne
        rw [hlibs, hsecret]
        exact hverify _ _
    · have hoff : db.connected = false := by simpa using hconn
      simp [register, bcryptHash, hp, saveUser, hoff] at hreg

/-- Witness of C7 with the example libraries: registering `a@x.com` with
password `secret` on the empty store and logging in with the same pair. -/
theorem register_login_roundtrip_witness :
    ∃ (u : User) (token : String),
      (register (exampleCtx 3 10) (emptyDB true)
          ⟨some "A", some "a@x.com", some "secret", none⟩).db.users
        = (emptyDB true).users ++ [u] ∧
      login (exampleCtx 4 50)
          (register (exampleCtx 3 10) (emptyDB true)
            ⟨some "A", some "a@x.com", some "secret", none⟩).db
          ⟨some "a@x.com", some "secret"⟩
        = ⟨(register (exampleCtx 3 10) (emptyDB true)
            ⟨some "A", some "a@x.com", some "secret", none⟩).db,
           .responded 200 (.session token u)⟩ ∧
      (exampleCtx 4 50).libs.verify token (exampleCtx 4 50).secret
        = some ⟨u._id, u.role⟩ := by
  obtain ⟨u, token, h1, -, -, -, h2, h3, -⟩ := register_login_roundtrip
    (exampleCtx 3 10) (exampleCtx 4 50) (emptyDB true)
    ⟨some "A", some "a@x.com", some "secret", none⟩
    (fun p salt => exampleLibs_compare_hash p salt)
    (fun claims iat => exampleLibs_verify_sign claims "k" iat)
    (by decide) (by decide)
  exact ⟨u, token, h1, h2, h3⟩

/-- C8: registering twice with the same email.  On a connected store holding no
user with the email of a register request that carries a password, the request
answers 201 and appends one user, built from the request, who is then the only
stored user with that email.  A second register request with the same email
and any name, password and role answers 400 "User already exists" and leaves
the database as it was, so the first user is still stored unchanged.  And
whatever sequence of requests is served from a store whose emails are pairwise
distinct, the emails of the stored users stay pairwise distinct. -/
theorem register_twice :
    (∀ (c1 c2 : Ctx) (db : DB) (b1 b2 : RegisterBody) (p1 p2 : String),
      db.connected = true → (∀ u ∈ db.users, u.email ≠ b1.email) →
      b1.password = some p1 → b2.password = some p2 → b2.email = b1.email →
      ∃ u : User,
        u = { _id := c1.oid, name := b1.name, email := b1.email,
              password := c1.libs.hash p1 c1.salt, role := b1.role.getD "user" } ∧
        register c1 db b1
          = ⟨{ db with users := db.users ++ [u] },
             .responded 201 (.message "User registered successfully")⟩ ∧
        (db.users ++ [u]).filter (fun v => v.email == b1.email) = [u] ∧
        register c2 (register c1 db b1).db b2
          = ⟨(register c1 db b1).db, .responded 400 (.message "User already exists")⟩ ∧
        u ∈ (register c2 (register c1 db b1).db b2).db.users) ∧
    (∀ (db : DB) (calls : List (Ctx × Call)),
      (db.users.map (fun u => u.email)).Nodup →
      ((run db calls).users.map (fun u => u.email)).Nodup) := by
  refine ⟨?_, fun db calls hnd => run_emails_nodup calls db hnd⟩
  intro c1 c2 db b1 b2 p1 p2 hconn hfresh hp1 hp2 hsame
  have hsave := saveUser_fresh db
    { _id := c1.oid, name := b1.name, email := b1.email,
      password := c1.libs.hash p1 c1.salt, role := b1.role.getD "user" } hconn hfresh
  have hr : register c1 db b1
      = ⟨{ db with users := db.users ++
            [{ _id := c1.oid, name := b1.name, email := b1.email,
               password := c1.libs.hash p1 c1.salt, role := b1.role.getD "user" }] },
         .responded 201 (.message "User registered successfully")⟩ := by
    simp [register, bcryptHash, hp1, hsave]
  have hfilter : db.users.filter (fun v => v.email == b1.email) = [] := by
    rw [List.filter_eq_nil_iff]
    intro u hu
    simpa using hfresh u hu
  have h2 : register c2 (register c1 db b1).db b2
      = ⟨(register c1 db b1).db, .responded 400 (.message "User already exists")⟩ := by
    apply register_taken c2 (register c1 db b1).db b2 p2 hp2
    exact ⟨_, by rw [hr]; exact List.mem_append_right _ (List.mem_singleton.mpr rfl),
      hsame.symm⟩
  refine ⟨_, rfl, hr, ?_, h2, ?_⟩
  · simp [List.filter_append, hfilter, List.filter_cons]
  · rw [h2, hr]
    exact List.mem_append_right _ (List.mem_singleton.mpr rfl)

/-- Witness of C8 with the example libraries: `a@x.com` registers on the empty
store, and a second registration of `a@x.com` with another name, password and
role is refused and changes nothing. -/
theorem register_twice_witness :
    register (exampleCtx 3 10) (emptyDB true) ⟨some "A", some "a@x.com", some "secret", none⟩
      = ⟨exampleAccounts, .responded 201 (.message "User registered successfully")⟩ ∧
    register (exampleCtx 4 20) exampleAccounts
        ⟨some "B", some "a@x.com", some "other", some "seller"⟩
      = ⟨exampleAccounts, .responded 400 (.message "User already exists")⟩ := by
  obtain ⟨u, hu, h1, -, h2, -⟩ := register_twice.1 (exampleCtx 3 10) (exampleCtx 4 20)
    (emptyDB true) ⟨some "A", some "a@x.com", some "secret", none⟩
    ⟨some "B", some "a@x.com", some "other", some "seller"⟩ "secret" "other"
    rfl (by decide) rfl rfl rfl
  subst hu
  have hdb : (register (exampleCtx 3 10) (emptyDB true)
      ⟨some "A", some "a@x.com", some "secret", none⟩).db = exampleAccounts := by
    rw [h1]; decide
  rw [hdb] at h2
  exact ⟨by rw [h1]; decide, h2⟩

/-- C9 as stated fails: not every failure is caught at the operation boundary.
Login for the stored user `a@x.com` with the password missing makes
`bcrypt.compare` reject, and listing the products without a storage connection
makes `Product.find` reject; neither handler has a `try`/`catch`, so neither
produces a status and message. -/
theorem failures_escape_counterexample :
    (¬ ∃ status body,
      (serve (exampleCtx 9 50) exampleAccounts (.login ⟨some "a@x.com", none⟩)).outcome
        = .responded status body) ∧
    (¬ ∃ status body,
      (serve (exampleCtx 9 50) (emptyDB false) .listProducts).outcome
        = .responded status body) := by
  have h1 : (serve (exampleCtx 9 50) exampleAccounts
      (.login ⟨some "a@x.com", none⟩)).outcome = .rejected .illegalArguments := by decide
  have h2 : (serve (exampleCtx 9 50) (emptyDB false) .listProducts).outcome
      = .rejected .storage := by decide
  constructor
  · rintro ⟨status, body, h⟩
    rw [h1] at h
    cases h
  · rintro ⟨status, body, h⟩
    rw [h2] at h
    cases h

/-- C9, amended: a failure becomes a status and message only where the code has
a `try`/`catch`.  (1) The gate answers 401, with the database unchanged, when
`jwt.verify` fails.  (2) Register, given a password, answers 400 "User already
exists" whenever saving the user fails, for whatever reason.  (3) Every handler
produces a status and a body when the collaborators it calls succeed (the
store is connected and the password that goes to bcryptjs is given).  (4) A
storage failure in login, listProducts, createProduct (seller token),
placeOrder or listMyOrders is not caught: the handler rejects with that
failure and sends nothing.  (5) Nor is the failure of `bcrypt.compare` on a
missing password in login. -/
theorem failures_caught_only_where_handled :
    (∀ (β : Type) (c : Ctx) (req : Request β) (db : DB)
        (next : Request β → DB → Result) (token : String),
      req.authorization = some token → c.libs.verify token c.secret = none →
      (authenticate c req db next).outcome.status = some 401 ∧
      (authenticate c req db next).db = db) ∧
    (∀ (c : Ctx) (db : DB) (b : RegisterBody) (p : String) (e : Failure),
      b.password = some p →
      saveUser db { _id := c.oid, name := b.name, email := b.email,
                    password := c.libs.hash p c.salt, role := b.role.getD "user" }
        = .error e →
      register c db b = ⟨db, .responded 400 (.message "User already exists")⟩) ∧
    (∀ (c : Ctx) (db : DB) (call : Call),
      db.connected = true → call.passwordGiven = true →
      ∃ status body, (serve c db call).outcome = .responded status body) ∧
    (∀ (c : Ctx) (db : DB), db.connected = false →
      (∀ b, login c db b = ⟨db, .rejected .storage⟩) ∧
      listProducts db = ⟨db, .rejected .storage⟩ ∧
      (∀ (req : Request ProductBody) (token : String) (d : Claims),
        req.authorization = some token → token ≠ "" →
        c.libs.verify token c.secret = some d → d.role = "seller" →
        createProduct c req db = ⟨db, .rejected .storage⟩) ∧
      (∀ (req : Request OrderBody) (token : String) (d : Claims),
        req.authorization = some token → token ≠ "" →
        c.libs.verify token c.secret = some d →
        placeOrder c req db = ⟨db, .rejected .storage⟩) ∧
      (∀ (req : Request Unit) (token : String) (d : Claims),
        req.authorization = some token → token ≠ "" →
        c.libs.verify token c.secret = some d →
        listMyOrders c req db = ⟨db, .rejected .storage⟩)) ∧
    (∀ (c : Ctx) (db : DB) (email : Option String) (u : User),
      db.connected = true → db.users.find? (fun v => v.email == email) = some u →
      login c db ⟨email, none⟩ = ⟨db, .rejected .illegalArguments⟩) := by
  refine ⟨?_, ?_, ?_, ?_, ?_⟩
  · intro β c req db next token htok hver
    by_cases hne : token = ""
    · subst hne
      simp [authenticate_empty_header c req db next htok, Outcome.status]
    · simp [authenticate_invalid c req db next token htok hne hver, Outcome.status]
  · intro c db b p e hp hsave
    simp [register, bcryptHash, hp, hsave]
  · intro c db call hconn hpw
    exact serve_responds c db call hconn hpw
  · intro c db hoff
    refine ⟨?_, ?_, ?_, ?_, ?_⟩
    · intro b
      simp [login, findOneUser, hoff]
    · simp [listProducts, findProducts, hoff]
    · intro req token d htok hne hver hrole
      have hrun : createProduct c req db
          = createProductHandler c { req with user := some d } db :=
        authenticate_valid c req db _ token d htok hne hver
      rw [hrun]
      simp [createProductHandler, hrole, saveProduct, hoff]
    · intro req token d htok hne hver
      have hrun : placeOrder c req db = placeOrderHandler c { req with user := some d } db :=
        authenticate_valid c req db _ token d htok hne hver
      rw [hrun]
      simp [placeOrderHandler, saveOrder, hoff]
    · intro req token d htok hne hver
      have hrun : listMyOrders c req db
          = listMyOrdersHandler c { req with user := some d } db :=
        authenticate_valid c req db _ token d htok hne hver
      rw [hrun]
      simp [listMyOrdersHandler, findOrdersPopulated, hoff]
  · intro c db email u hconn hf
    simp [login, findOneUser, hconn, hf, bcryptCompare]

/-- Witness of amended C9 with the example libraries: without a storage
connection, register (with a password) still answers 400, while placing an
order with a valid token rejects without a response. -/
theorem failures_caught_only_where_handled_witness :
    register (exampleCtx 3 10) (emptyDB false) ⟨some "A", some "a@x.com", some "secret", none⟩
      = ⟨emptyDB false, .responded 400 (.message "User already exists")⟩ ∧
    placeOrder (exampleCtx 5 1000)
        ⟨some userToken, none, ⟨some [⟨some 1, some 2⟩], some 40, some "X", none, none, []⟩⟩
        (emptyDB false)
      = ⟨emptyDB false, .rejected .storage⟩ :=
  ⟨failures_caught_only_where_handled.2.1 (exampleCtx 3 10) (emptyDB false)
      ⟨some "A", some "a@x.com", some "secret", none⟩ "secret" .storage rfl rfl,
   (failures_caught_only_where_handled.2.2.2.1 (exampleCtx 5 1000) (emptyDB false) rfl).2.2.2.1
      ⟨some userToken, none, ⟨some [⟨some 1, some 2⟩], some 40, some "X", none, none, []⟩⟩
      userToken ⟨3, "user"⟩ rfl (by decide) (by decide)⟩

/-- C10 as stated fails: the stored role is not confined to `user` and
`seller`.  One register request carrying the role `admin`, served from the
empty store, stores a user whose role is `admin`. -/
theorem role_enumeration_counterexample :
    ¬ ∀ u ∈ (run (emptyDB true)
        [(exampleCtx 1 0,
          Call.register ⟨some "M", some "m@x.com", some "pw", some "admin"⟩)]).users,
      u.role = "user" ∨ u.role = "seller" := by
  intro h
  have hu := h { _id := 1, name := some "M", email := some "m@x.com",
                 password := "$2a$10$pw", role := "admin" } (by decide)
  revert hu
  decide

/-- C10, amended: the role is an unchecked string with default `user`.  In every
state reached from the empty store by any sequence of requests, every stored
user was created by a register request of the sequence, and the user's role is
the `role` string of that request, whatever string it is, and `user` when the
request omitted `role`.  In particular a register request that answers 201
appends one user whose role is the body's `role`, or `user` when it is
omitted. -/
theorem stored_role_from_request :
    (∀ (connected : Bool) (calls : List (Ctx × Call)),
      ∀ u ∈ (run (emptyDB connected) calls).users,
        ∃ c b, (c, Call.register b) ∈ calls ∧ u.email = b.email ∧
          u.role = b.role.getD "user" ∧
          (b.role = none → u.role = "user") ∧
          (∀ r, b.role = some r → u.role = r)) ∧
    (∀ (c : Ctx) (db : DB) (b : RegisterBody),
      (register c db b).outcome
        = .responded 201 (.message "User registered successfully") →
      ∃ u, (register c db b).db.users = db.users ++ [u] ∧
        u.role = b.role.getD "user" ∧
        (b.role = none → u.role = "user") ∧
        (∀ r, b.role = some r → u.role = r)) := by
  constructor
  · intro connected calls u hu
    rcases run_user_origin calls (emptyDB connected) u hu with h | ⟨c, b, p, hmem, -, rfl⟩
    · simp [emptyDB] at h
    · refine ⟨c, b, hmem, rfl, rfl, ?_, ?_⟩
      · intro hr; simp [hr]
      · intro r hr; simp [hr]
  · intro c db b hreg
    rcases register_users c db b with h | ⟨p, hp, hconn, hfresh, h⟩
    · exfalso
      cases hp : b.password with
      | none => simp [register, bcryptHash, hp] at hreg
      | some p =>
        have hdb : (register c db b).db = db := h
        simp only [register, bcryptHash, hp] at hreg hdb
        split at hreg
        · rename_i db2 hsave
          rw [hsave] at hdb
          simp only at hdb
          unfold saveUser at hsave
          split at hsave
          · cases hsave
          · split at hsave
            · cases hsave
            · injection hsave with hsave
              rw [← hsave] at hdb
              have := congrArg (fun d => d.users.length) hdb
              simp at this
        · simp at hreg
    · refine ⟨_, by rw [h], rfl, ?_, ?_⟩
      · intro hr; simp [hr]
      · intro r hr; simp [hr]

/-- Witness of amended C10 with the example libraries: a register request
without `role` stores the role `user`, and one with the role `admin` stores
`admin`. -/
theorem stored_role_from_request_witness :
    (∃ u, (register (exampleCtx 3 10) (emptyDB true)
        ⟨some "A", some "a@x.com", some "secret", none⟩).db.users
        = (emptyDB true).users ++ [u] ∧ u.role = "user") ∧
    (∃ u, (register (exampleCtx 1 0) (emptyDB true)
        ⟨some "M", some "m@x.com", some "pw", some "admin"⟩).db.users
        = (emptyDB true).users ++ [u] ∧ u.role = "admin") := by
  constructor
  · obtain ⟨u, h, -, hnone, -⟩ := stored_role_from_request.2 (exampleCtx 3 10)
      (emptyDB true) ⟨some "A", some "a@x.com", some "secret", none⟩ (by decide)
    exact ⟨u, h, hnone rfl⟩
  · obtain ⟨u, h, -, -, hsome⟩ := stored_role_from_request.2 (exampleCtx 1 0)
      (emptyDB true) ⟨some "M", some "m@x.com", some "pw", some "admin"⟩ (by decide)
    exact ⟨u, h, hsome "admin" rfl⟩

end MatrikaBazaar
